import Mathlib

/-!
# Verification of the `angel_bridge_min.py` translation layer

Shallow embedding of the pure logic of `src/angel_bridge_min.py`: the
container resolver, the property mapper, the content segmenter, the
pagination walker, the access gate and the id normalizer.

Modelling conventions:
* Python `str` values are Lean `String`s. Since the built-in `String.trim`,
  `String.splitOn`, `String.replace` do not reduce inside the kernel, the
  Python string primitives actually used by the source (`str.strip`,
  `str.lower`, `str.split`, `str.replace`) are re-implemented structurally on
  `List Char` below, with Python's semantics (e.g. `"".split(",") == [""]`,
  left-to-right non-overlapping replacement).
* Python `None` becomes `Option.none`; a fallible remote call becomes an
  `Except` value supplied as an oracle argument; a raised `HTTPException`
  becomes an `Except.error` carrying a `BridgeError`.
* Python dictionaries whose keys are fixed string literals (the property
  payload) become ordered association lists `List (String × PropValue)`;
  insertion order is preserved.
* The remote side of the pagination loops is modelled as a finite script:
  the list of responses successive calls would receive. A walk returns
  `none` if the loop would issue more calls than the script provides.
-/

namespace AngelBridge

/-! ## Python string primitives -/

/-- The whitespace characters stripped by Python's `str.strip()`
(restricted to the ASCII range, which covers every input the source
manipulates). -/
def pyWhitespace (c : Char) : Bool :=
  c = ' ' || c = '\t' || c = '\n' || c = '\r' || c = '\x0b' || c = '\x0c'

/-- Python `str.strip()` on a character list: drop leading and trailing
whitespace. -/
def stripL (l : List Char) : List Char :=
  ((l.dropWhile pyWhitespace).reverse.dropWhile pyWhitespace).reverse

/-- Python `str.lower()` (ASCII case folding, which is all the source needs:
the result is only ever tested against `[0-9a-f]`). -/
def lowerL (l : List Char) : List Char :=
  l.map Char.toLower

/-- Python `str.split(sep)` for a one-character separator: `"".split(",")`
is `[""]`, empty segments are kept. -/
def splitChar (sep : Char) : List Char → List (List Char)
  | [] => [[]]
  | c :: rest =>
    if c = sep then [] :: splitChar sep rest
    else
      match splitChar sep rest with
      | [] => [[c]]
      | seg :: segs => (c :: seg) :: segs

/-- Python `str.split("\n\n")`: split on a double line-break, scanning left
to right, non-overlapping. -/
def splitNN : List Char → List (List Char)
  | '\n' :: '\n' :: rest => [] :: splitNN rest
  | c :: rest =>
    match splitNN rest with
    | [] => [[c]]
    | seg :: segs => (c :: seg) :: segs
  | [] => [[]]

/-- Python `content.replace("\r\n", "\n")`: left-to-right non-overlapping
replacement of CRLF by LF. -/
def normNewlines : List Char → List Char
  | '\r' :: '\n' :: rest => '\n' :: normNewlines rest
  | c :: rest => c :: normNewlines rest
  | [] => []

/-- Python truthiness of an optional string parameter: `None` and `""` are
falsy, everything else truthy. -/
def strTruthy : Option String → Bool
  | none => false
  | some s => !(s == "")

/-! ## Id normalization (`normalize_uuid`, source lines 11–17) -/

/-- One character of the class `[0-9a-f]`. -/
def isHexLowerDigit (c : Char) : Bool :=
  c.isDigit || ('a' ≤ c && c ≤ 'f')

/-- Boolean test for `re.fullmatch(r"[0-9a-f]{32}", t)`. -/
def fullmatchHex32 (t : List Char) : Bool :=
  t.length == 32 && t.all isHexLowerDigit

/-- The reduction `s.strip().lower().replace("-", "")` applied by
`normalize_uuid` before the hex test. -/
def uuidReduce (s : String) : List Char :=
  (lowerL (stripL s.data)).filter (fun c => !(c = '-'))

/-- The canonical `8-4-4-4-12` hyphenation `t[0:8]-t[8:12]-t[12:16]-t[16:20]-t[20:32]`. -/
def hyphenate32 (t : List Char) : String :=
  String.mk (t.take 8) ++ "-" ++ String.mk ((t.drop 8).take 4) ++ "-" ++
    String.mk ((t.drop 12).take 4) ++ "-" ++ String.mk ((t.drop 16).take 4) ++ "-" ++
    String.mk ((t.drop 20).take 12)

/-- Embedding of `normalize_uuid` (source lines 11–17): empty input is returned as is;
otherwise strip, lowercase and remove hyphens, and if exactly 32 hex digits
remain, return them in canonical hyphenated form, else return the input
unchanged. -/
def normalize_uuid (s : String) : String :=
  if s == "" then s
  else
    let t := uuidReduce s
    if fullmatchHex32 t then hyphenate32 t else s

/-! ## Access gate (`require_secret`, source lines 56–62) -/

/-- The two failure species a journal handler can surface: a locally raised
authorization failure (`HTTPException(401, ...)` raised by `require_secret`
before any remote call) and a remote-originated error bubbled up verbatim by
`notion_request` (status and body of the remote response). -/
inductive BridgeError
  | unauthorized (status : Nat) (detail : String)
  | remote (status : Nat) (body : String)
deriving DecidableEq

/-- Embedding of `require_secret` (source lines 56–62). `BRIDGE_SECRET` is always a
string (`os.environ.get(..., "")`), so `if not BRIDGE_SECRET` is the test
for the empty string. The header and query parameters are optional; Python's
`None == secret` is false for a string secret. -/
def require_secret (bridgeSecret : String) (secretHeader secretQuery : Option String) :
    Except BridgeError Unit :=
  if bridgeSecret == "" then .ok ()
  else if secretHeader == some bridgeSecret || secretQuery == some bridgeSecret then .ok ()
  else .error (.unauthorized 401 "Unauthorized: missing/invalid bridge secret")

/-- Environment default `BRIDGE_SECRET = os.environ.get("BRIDGE_SECRET", "")` (source line 9):
an unset variable yields the empty string. -/
def bridgeSecretFromEnv (envValue : Option String) : String :=
  envValue.getD ""

/-- One remote HTTP call issued through `notion_request`. -/
structure RemoteCall where
  method : String
  path : String
deriving DecidableEq

/-- The observable outcome of one handler invocation: its response (or
error) together with the remote calls it issued, in order. -/
structure HandlerRun (ρ : Type) where
  response : Except BridgeError ρ
  remote_calls : List RemoteCall

/-- The shared prologue of every journal endpoint in the source: each
handler body begins with `require_secret(x_bridge_secret, secret)` and only
then proceeds to its remote work (modelled by the arbitrary continuation
`rest`). A raised `HTTPException` aborts the handler, so on authorization
failure no remote call is issued. -/
def journal_handler {ρ : Type} (bridgeSecret : String) (secretHeader secretQuery : Option String)
    (rest : HandlerRun ρ) : HandlerRun ρ :=
  match require_secret bridgeSecret secretHeader secretQuery with
  | .error e => ⟨.error e, []⟩
  | .ok _ => rest

/-! ## Container resolver (`get_parent_for_create` / `get_data_source_id`,
source lines 43–54) -/

/-- One sub-container ("data source") entry of the remote container
metadata. -/
structure DataSource where
  id : String
deriving DecidableEq

/-- The remote container-metadata response, as far as the resolver reads
it: its optional `data_sources` list (`none` models an absent key, for
which Python's `db.get("data_sources")` yields `None`). -/
structure DbMeta where
  data_sources : Option (List DataSource)
deriving DecidableEq

/-- The parent object of a create call: the resolved addressing mode. -/
inductive Parent
  | data_source_id (id : String)
  | database_id (id : String)
deriving DecidableEq

/-- Embedding of `get_parent_for_create` (source lines 43–49), as a function of the
remote response and the configured container id: `db.get("data_sources") or []`
maps both an absent key and an empty list to `[]`. -/
def get_parent_for_create (db : DbMeta) (dbId : String) : Parent :=
  match db.data_sources.getD [] with
  | [] => .database_id dbId
  | ds :: _ => .data_source_id ds.id

/-- Embedding of `get_data_source_id` (source lines 51–54), as a function of the remote
response. -/
def get_data_source_id (db : DbMeta) : Option String :=
  match db.data_sources.getD [] with
  | [] => none
  | ds :: _ => some ds.id

/-! ## Content segmenter (source lines 64–96) -/

/-- One content block, as built by the `make_*` constructors of the
source. -/
inductive Block
  | paragraph (text : String)
  | heading (level : Int) (text : String)
  | bullet (text : String)
  | divider
deriving DecidableEq

/-- Embedding of `make_paragraph_block` (source lines 64–69): one paragraph block with a
single rich-text run. -/
def make_paragraph_block (text : String) : Block :=
  .paragraph text

/-- Embedding of `make_heading` (source lines 76–82): the level is clamped to `[1, 3]`
by `max(1, min(level, 3))`. -/
def make_heading (text : String) (level : Int) : Block :=
  .heading (max 1 (min level 3)) text

/-- Embedding of `make_bullet` (source lines 84–89). -/
def make_bullet (text : String) : Block :=
  .bullet text

/-- Embedding of `make_divider` (source lines 91–92). -/
def make_divider : Block :=
  .divider

/-- Embedding of `blocks_from_plaintext` (source lines 71–74):
`paras = [p.strip() for p in content.replace("\r\n", "\n").split("\n\n") if p.strip()]`
followed by `[make_paragraph_block(p) for p in paras] or [make_paragraph_block(content)]`
(Python's `or` takes the right operand when the left list is empty). -/
def blocks_from_plaintext (content : String) : List Block :=
  let paras :=
    ((splitNN (normNewlines content.data)).filter (fun p => !(stripL p == []))).map
      (fun p => String.mk (stripL p))
  let mapped := paras.map make_paragraph_block
  if mapped == [] then [make_paragraph_block content] else mapped

/-- Worded from the spec's segmentation contract, to be compared with
`blocks_from_plaintext`: normalize line-ending variants, split on a double
line-break, trim each segment, drop the empty segments, map each remaining
segment to a paragraph block; if no segment remains, emit one paragraph
block holding the original text verbatim. -/
def segment_reference (content : String) : List Block :=
  let segs :=
    ((splitNN (normNewlines content.data)).map (fun p => String.mk (stripL p))).filter
      (fun s => !(s == ""))
  if segs == [] then [Block.paragraph content] else segs.map Block.paragraph

/-! ## Property mapper (`_select` / `_multi` and the `append` handler's
property dictionary, source lines 40–41 and 184–194) -/

/-- One typed property value, as far as the source builds them. -/
inductive PropValue
  | title (content : String)
  | select (name : String)
  | multi (names : List String)
  | checkbox (b : Bool)
  | number (x : Float)
  | rich_text (content : String)
  | files (name : String) (url : String)
  | null

/-- Embedding of `_select` (source line 40): `{"select": {"name": name}} if name else None`. -/
def _select : Option String → Option PropValue
  | none => none
  | some n => if n == "" then none else some (.select n)

/-- Embedding of `_multi` (source line 41):
`{"multi_select": [{"name": n} for n in names]} if names else None` —
an empty list is falsy, so it yields `None`. -/
def _multi (names : List String) : Option PropValue :=
  if names == [] then none else some (.multi names)

/-- A Python expression that may be `None` stored into a dict entry:
`None` serializes as JSON `null`. -/
def optValue : Option PropValue → PropValue
  | none => .null
  | some v => v

/-- The compass parse at source line 188:
`[c.strip() for c in compass.split(",") if c.strip()]`. -/
def compass_names (compass : String) : List String :=
  ((splitChar ',' compass.data).filter (fun c => !(stripL c == []))).map
    (fun c => String.mk (stripL c))

/-- Worded from the spec's multi-choice contract, to be compared with
`compass_names`: split on comma, trim whitespace from each segment, drop
the empty segments, preserve order. -/
def compass_reference (compass : String) : List String :=
  ((splitChar ',' compass.data).map (fun c => String.mk (stripL c))).filter
    (fun s => !(s == ""))

/-- The display name of the attachment at source lines 193–194:
`artifact_url.split("/")[-1] or "attachment"`. -/
def artifactName (url : String) : String :=
  let last := String.mk ((splitChar '/' url.data).getLastD [])
  if last == "" then "attachment" else last

/-- The `Artifacts` value at source lines 192–194: one external-file
reference. -/
def artifactValue (url : String) : PropValue :=
  .files (artifactName url) url

/-- The merged field set of one `/journal/append` request (after the
JSON-body-over-query merge): `text` is required, everything else
optional. -/
structure AppendInput where
  text : String
  type : Option String
  phase : Option String
  compass : Option String
  shadow : Option Bool
  resonance : Option Float
  status : Option String
  slug : Option String
  artifact_url : Option String
  content : Option String

/-- One conditional dict entry `if cond: props[k] = v`. -/
def optEntry (cond : Bool) (k : String) (v : PropValue) : List (String × PropValue) :=
  if cond then [(k, v)] else []

/-- The property dictionary built by the `append` handler (source lines
184–194), in insertion order. Each guard is Python truthiness (`if type:`,
`if compass:`, ...) except `shadow` and `resonance`, which are guarded by
`is not None`; the stored values are exactly the source's right-hand
sides (`_select`, `_multi` may yield `None`, serialized as `null`). -/
def append_props (i : AppendInput) : List (String × PropValue) :=
  [("Name", PropValue.title i.text)]
  ++ optEntry (strTruthy i.type) "Type" (optValue (_select i.type))
  ++ optEntry (strTruthy i.phase) "Phase" (optValue (_select i.phase))
  ++ optEntry (strTruthy i.status) "Status" (optValue (_select i.status))
  ++ optEntry (strTruthy i.compass) "Compass"
      (optValue (_multi (compass_names (i.compass.getD ""))))
  ++ optEntry i.shadow.isSome "Shadow" (.checkbox (i.shadow.getD false))
  ++ optEntry i.resonance.isSome "Resonance (1-5)" (.number (i.resonance.getD 0))
  ++ optEntry (strTruthy i.slug) "Slug" (.rich_text (i.slug.getD ""))
  ++ optEntry (strTruthy i.artifact_url) "Artifacts" (artifactValue (i.artifact_url.getD ""))

/-- The keys of the property dictionary, in insertion order. -/
def propKeys (i : AppendInput) : List String :=
  (append_props i).map Prod.fst

/-! ## Pagination walker (`fetch_blocks`, source lines 98–113, and the
`fetch_all` loop, source lines 395–419) -/

/-- One paged remote response, as far as the loops read it: its `results`
items, its `has_more` flag (an absent key reads as `None`, i.e. `false`)
and its optional `next_cursor`. -/
structure PageResp (α : Type) where
  results : List α
  has_more : Bool
  next_cursor : Option String
deriving DecidableEq

/-- The loop of `fetch_blocks` (source lines 100–113) over a finite remote
script. Each iteration records the cursor it sent (`none` on the first
call), appends the whole returned batch, and stops when the response says
`has_more` is false or the accumulated count has reached `max_blocks`;
otherwise it passes `next_cursor` to the next call. Returns `none` when the
loop would outrun the script. -/
def fetch_blocks_loop {α : Type} (max_blocks : Nat) :
    List (PageResp α) → Option String → List α → Nat → List (Option String) →
      Option (List α × List (Option String))
  | [], _, _, _, _ => none
  | resp :: rest, cursor, acc, fetched, trace =>
    let acc' := acc ++ resp.results
    let fetched' := fetched + resp.results.length
    let trace' := trace ++ [cursor]
    if !resp.has_more || max_blocks ≤ fetched' then some (acc', trace')
    else fetch_blocks_loop max_blocks rest resp.next_cursor acc' fetched' trace'

/-- Embedding of `fetch_blocks` (source lines 98–113) as a function of the remote
script and the cap: the accumulated items and the per-call cursor trace. -/
def fetch_blocks {α : Type} (max_blocks : Nat) (script : List (PageResp α)) :
    Option (List α × List (Option String)) :=
  fetch_blocks_loop max_blocks script none [] 0 []

/-- The uncapped loop of `fetch_all` (source lines 395–419) over a finite
remote script. `payload["start_cursor"]` is set only when `next_cursor` is
truthy, so a falsy `next_cursor` leaves the previously sent cursor in the
payload — modelled by keeping the old cursor. The loop stops only when
`has_more` is false. -/
def fetch_all_loop {α : Type} :
    List (PageResp α) → Option String → List α → List (Option String) →
      Option (List α × List (Option String))
  | [], _, _, _ => none
  | resp :: rest, cursor, acc, trace =>
    let acc' := acc ++ resp.results
    let trace' := trace ++ [cursor]
    if !resp.has_more then some (acc', trace')
    else
      fetch_all_loop rest
        (match resp.next_cursor with | some c => some c | none => cursor) acc' trace'

/-- The `fetch_all` pagination walk (source lines 395–419) as a function of
the remote script: the accumulated items and the per-call cursor trace. -/
def fetch_all {α : Type} (script : List (PageResp α)) :
    Option (List α × List (Option String)) :=
  fetch_all_loop script none [] []

/-- A well-formed terminating remote script: every response but the last
reports more pages and supplies a fresh cursor, and the last reports no
more pages. -/
def WellFormedScript {α : Type} (script : List (PageResp α)) : Prop :=
  script ≠ [] ∧
  (∀ r ∈ script.dropLast, r.has_more = true ∧ r.next_cursor.isSome = true) ∧
  ∀ r ∈ script.getLast?, r.has_more = false

/-! ## `/journal/pulse` (not present under `src/`; modelled from the
spec) -/

/-- One entry as ranked by the pulse endpoint: its id and its numeric
score (resonance). -/
structure PulseEntry where
  id : String
  resonance : Int
deriving DecidableEq

/-- The descending-by-score comparison used to rank pulse entries. -/
def pulseLE (a b : PulseEntry) : Bool :=
  b.resonance ≤ a.resonance

/-- Modelled from the spec: the `/journal/pulse` handler is listed in the
spec's HTTP surface (`GET /journal/pulse` — top-N entries sorted descending
by the numeric score field) but its code is not under `src/`. Faithful to
the spec's words: sort the entries descending by the numeric score and
return the top N. -/
def pulse (n : Nat) (entries : List PulseEntry) : List PulseEntry :=
  (entries.mergeSort pulseLE).take n

/-! ## Helper lemmas -/

/-- A character-list string is empty iff the list is. -/
lemma mk_eq_empty_iff (xs : List Char) : String.mk xs = "" ↔ xs = [] :=
  ⟨fun h => congrArg String.data h, fun h => by rw [h]⟩

/-- Filtering on a non-empty strip and then stripping is the same as
stripping every segment and then dropping the empty strings (the shape
shared by the compass parse and the paragraph split). -/
lemma filter_map_strip (l : List (List Char)) :
    (l.filter (fun c => !(stripL c == []))).map (fun c => String.mk (stripL c)) =
      (l.map (fun c => String.mk (stripL c))).filter (fun s => !(s == "")) := by
  induction l with
  | nil => rfl
  | cons c rest ih =>
    simp only [List.filter_cons, List.map_cons]
    by_cases h : stripL c = []
    · rw [show (!(stripL c == [])) = false by simp [h],
        show (!(String.mk (stripL c) == "")) = false by simp [mk_eq_empty_iff, h]]
      simpa using ih
    · rw [show (!(stripL c == [])) = true by simp [h],
        show (!(String.mk (stripL c) == "")) = true by simp [mk_eq_empty_iff, h],
        if_pos rfl, if_pos rfl]
      simpa using ih

/-- A key occurs in a conditional dict entry iff the guard holds and the
key matches. -/
lemma mem_map_fst_optEntry (k k' : String) (v : PropValue) (c : Bool) :
    k ∈ (optEntry c k' v).map Prod.fst ↔ c = true ∧ k = k' := by
  cases c <;> simp [optEntry]

/-- Pair-level version of `mem_map_fst_optEntry`. -/
lemma pair_mem_optEntry (k k' : String) (x v : PropValue) (c : Bool) :
    (k, x) ∈ optEntry c k' v ↔ c = true ∧ k = k' ∧ x = v := by
  cases c <;> simp [optEntry]

/-! ## Claim theorems -/

/-- Claim C6: an input whose strip-lowercase-dehyphenate reduction is 32
hex digits is normalized to the canonical lowercase `8-4-4-4-12` hyphenated
form of that reduction; any other input passes through `normalize_uuid`
unchanged. -/
theorem normalize_uuid_spec (s : String) :
    (fullmatchHex32 (uuidReduce s) = true → normalize_uuid s = hyphenate32 (uuidReduce s)) ∧
    (fullmatchHex32 (uuidReduce s) = false → normalize_uuid s = s) := by
  constructor <;> intro h
  · by_cases hs : s = ""
    · subst hs; exact absurd h (by decide)
    · simp only [normalize_uuid]
      rw [if_neg (by simpa using hs), if_pos h]
  · by_cases hs : s = ""
    · simp [hs, normalize_uuid]
    · simp only [normalize_uuid]
      rw [if_neg (by simpa using hs), if_neg (by simp [h])]

/-- Witness for C6: a mixed-case hyphenated input is canonicalized, a
non-hex input passes through unchanged. -/
theorem normalize_uuid_spec_witness :
    normalize_uuid "ABCDEF01-2345-6789-ABCD-EF0123456789" =
        "abcdef01-2345-6789-abcd-ef0123456789" ∧
      normalize_uuid "not-a-uuid" = "not-a-uuid" := by
  constructor
  · rw [(normalize_uuid_spec "ABCDEF01-2345-6789-ABCD-EF0123456789").1 (by decide)]
    decide
  · exact (normalize_uuid_spec "not-a-uuid").2 (by decide)

/-- Claim C9: a configured empty-string secret is indistinguishable from an
unset one (`os.environ.get` defaults to `""` and `if not BRIDGE_SECRET`
treats `""` as open mode): every request is authorized whatever header or
query value it carries. -/
theorem empty_secret_open_mode :
    ∀ hdr q : Option String,
      require_secret (bridgeSecretFromEnv (some "")) hdr q =
          require_secret (bridgeSecretFromEnv none) hdr q ∧
        require_secret (bridgeSecretFromEnv (some "")) hdr q = .ok () := by
  intro hdr q
  exact ⟨rfl, rfl⟩

/-- Claim C2: container resolution is a function of the remote response
alone (hence deterministic under repetition); a non-empty `data_sources`
list resolves to addressing mode `data_source_id` with the first listed
sub-container's id, and an empty or absent list resolves to
`database_id` with the original container id. -/
theorem get_parent_for_create_spec (db : DbMeta) (dbId : String) :
    (∀ d rest, db.data_sources = some (d :: rest) →
        get_parent_for_create db dbId = .data_source_id d.id ∧
          get_data_source_id db = some d.id) ∧
    ((db.data_sources = none ∨ db.data_sources = some []) →
        get_parent_for_create db dbId = .database_id dbId ∧
          get_data_source_id db = none) := by
  constructor
  · intro d rest h
    simp [get_parent_for_create, get_data_source_id, h]
  · rintro (h | h) <;> simp [get_parent_for_create, get_data_source_id, h]

/-- Witness for C2: a remote listing `[X, Y]` resolves to `X`; an absent
list resolves to the legacy container id. -/
theorem get_parent_for_create_spec_witness :
    (get_parent_for_create ⟨some [⟨"X"⟩, ⟨"Y"⟩]⟩ "db0" = .data_source_id "X" ∧
        get_data_source_id ⟨some [⟨"X"⟩, ⟨"Y"⟩]⟩ = some "X") ∧
      get_parent_for_create ⟨none⟩ "db0" = .database_id "db0" ∧
        get_data_source_id (⟨none⟩ : DbMeta) = none :=
  ⟨(get_parent_for_create_spec ⟨some [⟨"X"⟩, ⟨"Y"⟩]⟩ "db0").1 ⟨"X"⟩ [⟨"Y"⟩] rfl,
    (get_parent_for_create_spec ⟨none⟩ "db0").2 (Or.inl rfl)⟩

/-- Claim C4: the multi-choice name list built from the compass string is
exactly the reference parse — split on comma, trim each segment, drop empty
segments, preserve order — and `"Presence, Coherence, "` parses to
`["Presence", "Coherence"]`. -/
theorem compass_names_spec :
    (∀ s, compass_names s = compass_reference s) ∧
      compass_names "Presence, Coherence, " = ["Presence", "Coherence"] := by
  constructor
  · intro s
    exact filter_map_strip (splitChar ',' s.data)
  · decide

/-- Claim C5: content segmentation agrees with the reference definition
(normalize line endings, split on double line-break, trim, drop empties,
one paragraph per segment, with a verbatim one-paragraph fallback), every
non-empty input yields at least one block, and `"A\n\nB"` yields exactly
the two paragraphs `"A"` and `"B"`. -/
theorem blocks_from_plaintext_spec :
    (∀ content, blocks_from_plaintext content = segment_reference content) ∧
    (∀ content, content ≠ "" → 1 ≤ (blocks_from_plaintext content).length) ∧
      blocks_from_plaintext "A\n\nB" = [Block.paragraph "A", Block.paragraph "B"] := by
  refine ⟨fun content => ?_, fun content _ => ?_, by decide⟩
  · simp only [blocks_from_plaintext, segment_reference, filter_map_strip]
    by_cases h :
        ((splitNN (normNewlines content.data)).map (fun p => String.mk (stripL p))).filter
            (fun s => !(s == "")) = [] <;>
      simp [h, make_paragraph_block]
  · simp only [blocks_from_plaintext]
    split
    · simp
    · rename_i h
      exact List.length_pos.mpr (by simpa using h)

/-- Witness for C5: the one-character input `"A"` yields at least one
block. -/
theorem blocks_from_plaintext_spec_witness :
    1 ≤ (blocks_from_plaintext "A").length :=
  blocks_from_plaintext_spec.2.1 "A" (by decide)

/-- Claim C1: with no (equivalently, an empty) configured secret, every
request runs its body whatever header or query value it carries; with a
secret configured, the body runs iff the header or the query value equals
the secret exactly, and otherwise the handler stops with a locally raised
401 — a `BridgeError.unauthorized`, distinct by construction from every
remote-originated `BridgeError.remote` — having issued zero remote calls.
The continuation `rest` ranges over the post-gate body of every journal
endpoint. -/
theorem journal_gate_spec {ρ : Type} (bridgeSecret : String) (hdr q : Option String)
    (rest : HandlerRun ρ) :
    (bridgeSecret = "" → journal_handler bridgeSecret hdr q rest = rest) ∧
    (bridgeSecret ≠ "" →
      ((hdr = some bridgeSecret ∨ q = some bridgeSecret) →
          journal_handler bridgeSecret hdr q rest = rest) ∧
        (hdr ≠ some bridgeSecret → q ≠ some bridgeSecret →
          journal_handler bridgeSecret hdr q rest =
            ⟨.error (.unauthorized 401 "Unauthorized: missing/invalid bridge secret"), []⟩)) ∧
    (∀ st body, BridgeError.unauthorized 401 "Unauthorized: missing/invalid bridge secret" ≠
        .remote st body) := by
  refine ⟨fun h => ?_, fun h => ⟨fun hm => ?_, fun h1 h2 => ?_⟩, fun st body => by simp⟩
  · simp [journal_handler, require_secret, h]
  · rcases hm with hm | hm <;> simp [journal_handler, require_secret, h, hm]
  · simp [journal_handler, require_secret, h, h1, h2]

/-- Witness for C1: with secret `"sek"` configured and a wrong header, the
handler answers the local 401 and issues no remote call. -/
theorem journal_gate_spec_witness :
    journal_handler "sek" (some "bad") none
        (⟨.ok 0, [⟨"GET", "/v1/databases/d"⟩]⟩ : HandlerRun Nat) =
      ⟨.error (.unauthorized 401 "Unauthorized: missing/invalid bridge secret"), []⟩ :=
  ((journal_gate_spec "sek" (some "bad") none _).2.1 (by decide)).2 (by decide) (by decide)

/-- Claim C3 fails on the code: a field that is present but empty is also
omitted, because the guards are Python truthiness. With `type` supplied as
the empty string, the field is present yet the `Type` key is absent from
the mapping. -/
theorem append_props_counterexample :
    (AppendInput.mk "t" (some "") none none none none none none none none).type ≠ none ∧
      "Type" ∉ propKeys (AppendInput.mk "t" (some "") none none none none none none none none) := by
  decide

/-- Claim C3 as amended: the mapping contains the key of a string-valued
optional field (type, phase, status, compass, slug, artifact-url) iff that
field was present with a non-empty string, and the key of shadow or
resonance iff that field was present (`false` and `0` included); absent
fields are omitted entirely. -/
theorem append_props_keys_spec (i : AppendInput) :
    "Name" ∈ propKeys i ∧
    ("Type" ∈ propKeys i ↔ strTruthy i.type = true) ∧
    ("Phase" ∈ propKeys i ↔ strTruthy i.phase = true) ∧
    ("Status" ∈ propKeys i ↔ strTruthy i.status = true) ∧
    ("Compass" ∈ propKeys i ↔ strTruthy i.compass = true) ∧
    ("Shadow" ∈ propKeys i ↔ i.shadow.isSome = true) ∧
    ("Resonance (1-5)" ∈ propKeys i ↔ i.resonance.isSome = true) ∧
    ("Slug" ∈ propKeys i ↔ strTruthy i.slug = true) ∧
    ("Artifacts" ∈ propKeys i ↔ strTruthy i.artifact_url = true) := by
  simp [propKeys, append_props, mem_map_fst_optEntry, pair_mem_optEntry]

/-- `pulseLE` is transitive. -/
lemma pulseLE_trans (a b c : PulseEntry) :
    pulseLE a b = true → pulseLE b c = true → pulseLE a c = true := by
  simp only [pulseLE, decide_eq_true_eq]
  omega

/-- `pulseLE` is total. -/
lemma pulseLE_total (a b : PulseEntry) : (pulseLE a b || pulseLE b a) = true := by
  simp only [pulseLE, Bool.or_eq_true, decide_eq_true_eq]
  omega

/-- Claim C8: the `/journal/pulse` endpoint (modelled from the spec, see
`pulse`) returns the top-N entries sorted descending by the numeric score:
its output is the N-prefix of a descending-by-resonance permutation of the
input entries. -/
theorem pulse_spec (n : Nat) (entries : List PulseEntry) :
    ∃ ranked : List PulseEntry,
      entries.Perm ranked ∧
        ranked.Sorted (fun a b => b.resonance ≤ a.resonance) ∧
        pulse n entries = ranked.take n := by
  refine ⟨entries.mergeSort pulseLE, (List.mergeSort_perm entries pulseLE).symm, ?_, rfl⟩
  have h := List.sorted_mergeSort (fun a b c => pulseLE_trans a b c)
    (fun a b => pulseLE_total a b) entries
  exact h.imp fun hab => by simpa [pulseLE] using hab

/-- One unfolding step of the uncapped loop on a non-empty script. -/
lemma fetch_all_loop_cons {α : Type} (resp : PageResp α) (rest : List (PageResp α))
    (cursor : Option String) (acc : List α) (trace : List (Option String)) :
    fetch_all_loop (resp :: rest) cursor acc trace =
      if !resp.has_more then some (acc ++ resp.results, trace ++ [cursor])
      else
        fetch_all_loop rest
          (match resp.next_cursor with | some c => some c | none => cursor)
          (acc ++ resp.results) (trace ++ [cursor]) := rfl

/-- One unfolding step of the capped loop on a non-empty script. -/
lemma fetch_blocks_loop_cons {α : Type} (max_blocks : Nat) (resp : PageResp α)
    (rest : List (PageResp α)) (cursor : Option String) (acc : List α) (fetched : Nat)
    (trace : List (Option String)) :
    fetch_blocks_loop max_blocks (resp :: rest) cursor acc fetched trace =
      if !resp.has_more || max_blocks ≤ fetched + resp.results.length then
        some (acc ++ resp.results, trace ++ [cursor])
      else
        fetch_blocks_loop max_blocks rest resp.next_cursor (acc ++ resp.results)
          (fetched + resp.results.length) (trace ++ [cursor]) := rfl

/-- The uncapped `fetch_all` loop on a well-formed script: it consumes the
whole script, accumulates every page's items in order, and each call after
the first carries the previous response's continuation cursor. -/
lemma fetch_all_loop_wf {α : Type} :
    ∀ (script : List (PageResp α)) (cursor : Option String) (acc : List α)
      (trace : List (Option String)),
      script ≠ [] →
      (∀ r ∈ script.dropLast, r.has_more = true ∧ r.next_cursor.isSome = true) →
      (∀ r ∈ script.getLast?, r.has_more = false) →
      fetch_all_loop script cursor acc trace =
        some (acc ++ (script.map PageResp.results).flatten,
          trace ++ cursor :: script.dropLast.map PageResp.next_cursor) := by
  intro script
  induction script with
  | nil => intro _ _ _ h; exact absurd rfl h
  | cons a rest ih =>
    intro cursor acc trace _ hmid hlast
    cases rest with
    | nil =>
      have ha : a.has_more = false := hlast a (by simp)
      simp [fetch_all_loop, ha]
    | cons b rest' =>
      have ha : a.has_more = true ∧ a.next_cursor.isSome = true :=
        hmid a (by simp [List.dropLast_cons_of_ne_nil])
      have hcur : (match a.next_cursor with | some c => some c | none => cursor) =
          a.next_cursor := by
        cases hc : a.next_cursor
        · rw [hc] at ha; simp at ha
        · rfl
      have step := ih (a.next_cursor) (acc ++ a.results) (trace ++ [cursor])
        (by simp)
        (fun r hr => hmid r (by simp [List.dropLast_cons_of_ne_nil]; exact Or.inr hr))
        (fun r hr => hlast r (by simpa using hr))
      rw [fetch_all_loop_cons, if_neg (by simp [ha.1]), hcur, step]
      simp [List.dropLast_cons_of_ne_nil]

/-- The uncapped `fetch_all` loop never stops while every response reports
more pages: it outruns any such finite script. -/
lemma fetch_all_loop_all_more {α : Type} :
    ∀ (script : List (PageResp α)) (cursor : Option String) (acc : List α)
      (trace : List (Option String)),
      (∀ r ∈ script, r.has_more = true) →
      fetch_all_loop script cursor acc trace = none := by
  intro script
  induction script with
  | nil => intro _ _ _ _; rfl
  | cons a rest ih =>
    intro cursor acc trace hall
    have ha : a.has_more = true := hall a (by simp)
    simp only [fetch_all_loop, ha, Bool.not_true, Bool.false_eq_true, if_false]
    exact ih _ _ _ fun r hr => hall r (by simp [hr])

/-- Claim C7: the pagination walker accumulates items strictly in
remote-returned order, passing each response's continuation cursor to the
next call; the uncapped variant consumes every page of a well-formed script
and stops only on the remote's no-more-pages signal (on an all-`has_more`
script it never stops); on the script `[A,B]`, `[C]`, no-more it returns
`[A,B,C]` in exactly 3 calls, and the capped variant under a cap of 2
stops after the first page. -/
theorem pagination_walker_spec :
    (∀ script : List (PageResp String), WellFormedScript script →
        fetch_all script =
          some ((script.map PageResp.results).flatten,
            none :: script.dropLast.map PageResp.next_cursor)) ∧
    (fetch_all [⟨["A", "B"], true, some "c1"⟩, ⟨["C"], true, some "c2"⟩, ⟨[], false, none⟩] =
        some (["A", "B", "C"], [none, some "c1", some "c2"])) ∧
    (∀ script : List (PageResp String), (∀ r ∈ script, r.has_more = true) →
        fetch_all script = none) ∧
    (fetch_blocks 2 [⟨["A", "B"], true, some "c1"⟩, ⟨["C"], true, some "c2"⟩, ⟨[], false, none⟩] =
        some (["A", "B"], [none])) := by
  refine ⟨fun script h => ?_, by decide, fun script h => ?_, by decide⟩
  · have := fetch_all_loop_wf script none [] [] h.1 h.2.1 h.2.2
    simpa [fetch_all] using this
  · exact fetch_all_loop_all_more script none [] [] h

/-- Witness for C7: the characterization applied to a concrete one-page
script, and an all-`has_more` one-page script on which the walker does not
stop. -/
theorem pagination_walker_spec_witness :
    fetch_all [(⟨["A"], false, none⟩ : PageResp String)] = some (["A"], [none]) ∧
      fetch_all [(⟨["A"], true, some "c"⟩ : PageResp String)] = none := by
  constructor
  · rw [pagination_walker_spec.1 [⟨["A"], false, none⟩]
      ⟨by decide, by decide, by decide⟩]
    decide
  · exact pagination_walker_spec.2.2.1 [⟨["A"], true, some "c"⟩] (by decide)

/-- Length bound for the capped loop: every returned batch is appended
whole, and the loop only continues while the accumulated count is below the
cap, so the result exceeds the entry state by at most one page beyond the
remaining headroom. -/
lemma fetch_blocks_loop_length_le {α : Type} (cap pageMax : Nat) :
    ∀ (script : List (PageResp α)) (cursor : Option String) (acc : List α) (fetched : Nat)
      (trace : List (Option String)) (items : List α) (tr : List (Option String)),
      (∀ r ∈ script, r.results.length ≤ pageMax) →
      fetch_blocks_loop cap script cursor acc fetched trace = some (items, tr) →
      items.length ≤ acc.length + pageMax + (cap - fetched) := by
  intro script
  induction script with
  | nil =>
    intro _ _ _ _ _ _ _ h
    simp [fetch_blocks_loop] at h
  | cons a rest ih =>
    intro cursor acc fetched trace items tr hbound h
    have ha : a.results.length ≤ pageMax := hbound a (by simp)
    rw [fetch_blocks_loop_cons] at h
    split at h
    · have hi : acc ++ a.results = items := congrArg Prod.fst (Option.some.inj h)
      have := congrArg List.length hi
      simp only [List.length_append] at this
      omega
    · rename_i hcond
      have hlt : fetched + a.results.length < cap := by
        simp only [Bool.or_eq_true, Bool.not_eq_true', decide_eq_true_eq, not_or] at hcond
        omega
      have := ih a.next_cursor (acc ++ a.results) (fetched + a.results.length)
        (trace ++ [cursor]) items tr (fun r hr => hbound r (by simp [hr])) h
      simp only [List.length_append] at this
      omega

/-- Claim C10: the capped walker never truncates within a page — it checks
the cap only between pages, stopping at (and fully appending) the first
page at which the accumulated count reaches the cap — so with remote pages
of at most 100 items its result length is at most the cap plus one page's
worth, and on a 3-item first page under cap 2 it returns all 3 items with a
single call even though more pages remain. -/
theorem fetch_blocks_cap_spec :
    (∀ (cap : Nat) (script : List (PageResp String)) (items : List String)
        (tr : List (Option String)),
        (∀ r ∈ script, r.results.length ≤ 100) →
        fetch_blocks cap script = some (items, tr) →
        items.length ≤ cap + 100) ∧
    (∀ (cap : Nat) (r : PageResp String) (rest : List (PageResp String))
        (cursor : Option String) (acc : List String) (fetched : Nat)
        (trace : List (Option String)),
        cap ≤ fetched + r.results.length →
        fetch_blocks_loop cap (r :: rest) cursor acc fetched trace =
          some (acc ++ r.results, trace ++ [cursor])) ∧
    (fetch_blocks 2 [⟨["x", "y", "z"], true, some "c"⟩, ⟨["w"], false, none⟩] =
        some (["x", "y", "z"], [none]) ∧
      2 < (["x", "y", "z"] : List String).length) := by
  refine ⟨fun cap script items tr hbound h => ?_, fun cap r rest cursor acc fetched trace h => ?_,
    by decide⟩
  · have := fetch_blocks_loop_length_le cap 100 script none [] 0 [] items tr hbound h
    simp only [List.length_nil, Nat.sub_zero] at this
    omega
  · rw [fetch_blocks_loop_cons, if_pos (by simp [h])]

/-- Witness for C10: the bound applied to a 3-item single page under cap 1,
and the stop-at-cap characterization applied to a 2-item first page under
cap 1. -/
theorem fetch_blocks_cap_spec_witness :
    (["a", "b", "c"] : List String).length ≤ 1 + 100 ∧
      fetch_blocks_loop 1 [(⟨["a", "b"], true, some "c"⟩ : PageResp String)] none [] 0 [] =
        some ([] ++ ["a", "b"], [] ++ [none]) :=
  ⟨fetch_blocks_cap_spec.1 1 [⟨["a", "b", "c"], false, none⟩] ["a", "b", "c"] [none]
      (by decide) (by decide),
    fetch_blocks_cap_spec.2.1 1 ⟨["a", "b"], true, some "c"⟩ [] none [] 0 [] (by decide)⟩

end AngelBridge
